import Mathlib

/-!
Verification of the AnalisisServidores server-room cooling model.

The definitions below shallowly embed the Modelica sources
(Funciones.mo, Componentes.mo, Modelos.mo) and the JavaScript
front-end histogram builders, over the real numbers.  Theorems then
settle the specified properties of the COP curve, the daily ambient
temperature profile, the climate generator, the control policy, the
HVAC power/energy/cost model, the room ODE, and the histograms.
-/

namespace AnalisisServidores

noncomputable section

open Real

/-- Embedding of Funciones.perfilTemperaturaDiaria: cosine interpolation of
the ambient temperature, with the protected constants inlined
(periodo = 86400, freq_ang = 2*pi/86400, t_offset = 54000,
amplitud = (T_max - T_min)/2, linea_media = (T_max + T_min)/2). -/
def perfilTemperaturaDiaria (t T_min T_max : ℝ) : ℝ :=
  (T_max + T_min) / 2 + ((T_max - T_min) / 2) * Real.cos ((2 * Real.pi / 86400) * (t - 54000))

/-- Embedding of Funciones.calcularCOP: piecewise COP curve over the ambient
temperature in Kelvin, with the protected Celsius conversion
T_amb_C = T_amb_K - 273.15 inlined. -/
def calcularCOP (T_amb_K : ℝ) : ℝ :=
  if T_amb_K - 273.15 ≤ 20 then 4.5
  else if T_amb_K - 273.15 ≥ 45 then 1.25
  else 4.5 - 0.15 * ((T_amb_K - 273.15) - 20)

/-- The COP curve is everywhere strictly above 0.75. -/
lemma calcularCOP_gt (T : ℝ) : 0.75 < calcularCOP T := by
  unfold calcularCOP
  split_ifs with h1 h2
  · norm_num
  · norm_num
  · push_neg at h1 h2
    nlinarith

/-- The COP curve is non-increasing strictly below 45 degrees C. -/
lemma calcularCOP_antitone_below (T1 T2 : ℝ) (h12 : T1 ≤ T2) (h2 : T2 - 273.15 < 45) :
    calcularCOP T2 ≤ calcularCOP T1 := by
  unfold calcularCOP
  split_ifs <;> linarith

/-- C1 counterexample. The claim says calcularCOP is monotonically
non-increasing and bounded below by 1.0.  At 44 C (317.15 K) the middle
affine branch gives 4.5 - 0.15 * 24 = 0.9, while at 45 C (318.15 K) the
saturated branch gives 1.25: the curve jumps upward and dips below 1. -/
theorem calcularCOP_claim_counterexample :
    (317.15 : ℝ) ≤ 318.15 ∧ calcularCOP 317.15 < calcularCOP 318.15 ∧
      calcularCOP 317.15 < 1 := by
  refine ⟨by norm_num, ?_, ?_⟩ <;> unfold calcularCOP <;> norm_num

/-- C1 (amended): the COP curve is monotonically non-increasing on ambient
temperatures strictly below 45 C, constant at 1.25 from 45 C upward, and
bounded below by 0.75 (not by 1.0); at 45 C it jumps upward from values
near 0.75 to 1.25. -/
theorem calcularCOP_amended_monotone_bounded :
    (∀ T1 T2 : ℝ, T1 ≤ T2 → T2 - 273.15 < 45 → calcularCOP T2 ≤ calcularCOP T1) ∧
    (∀ T : ℝ, 45 ≤ T - 273.15 → calcularCOP T = 1.25) ∧
    (∀ T : ℝ, 0.75 ≤ calcularCOP T) := by
  refine ⟨calcularCOP_antitone_below, ?_, fun T => (calcularCOP_gt T).le⟩
  intro T hT
  unfold calcularCOP
  split_ifs with h1
  · linarith
  · rfl

/-- C1 amended witness at concrete temperatures: 310.15 K (37 C) and
317.15 K (44 C) lie below the 45 C breakpoint, 320.15 K lies above it. -/
theorem calcularCOP_amended_monotone_bounded_witness :
    ((310.15 : ℝ) ≤ 317.15 ∧ (317.15 : ℝ) - 273.15 < 45 ∧
      calcularCOP 317.15 ≤ calcularCOP 310.15) ∧
    ((45 : ℝ) ≤ 320.15 - 273.15 ∧ calcularCOP 320.15 = 1.25) ∧
    (0.75 : ℝ) ≤ calcularCOP 300 :=
  ⟨⟨by norm_num, by norm_num,
      calcularCOP_amended_monotone_bounded.1 310.15 317.15 (by norm_num) (by norm_num)⟩,
   ⟨by norm_num, calcularCOP_amended_monotone_bounded.2.1 320.15 (by norm_num)⟩,
   calcularCOP_amended_monotone_bounded.2.2 300⟩

/-- C10: the COP is everywhere at least 0.75, hence strictly positive, the
clamp max(COP, 1e-6) in the HVAC power equation leaves the COP unchanged,
and the clamped divisor is strictly positive. -/
theorem calcularCOP_ge_safety_clamp (T : ℝ) :
    0.75 ≤ calcularCOP T ∧ max (calcularCOP T) 1e-6 = calcularCOP T ∧
      0 < max (calcularCOP T) 1e-6 := by
  have h := calcularCOP_gt T
  refine ⟨h.le, max_eq_left (by linarith), lt_max_of_lt_left (by linarith)⟩

/-- The cosine profile stays between the daily extrema. -/
lemma perfil_bounds (t T_min T_max : ℝ) (h : T_min ≤ T_max) :
    T_min ≤ perfilTemperaturaDiaria t T_min T_max ∧
      perfilTemperaturaDiaria t T_min T_max ≤ T_max := by
  have hc1 := Real.neg_one_le_cos ((2 * Real.pi / 86400) * (t - 54000))
  have hc2 := Real.cos_le_one ((2 * Real.pi / 86400) * (t - 54000))
  unfold perfilTemperaturaDiaria
  constructor <;> nlinarith

/-- At t = 54000 (15:00) the phase is 0 and the profile attains the maximum. -/
lemma perfil_at_54000 (T_min T_max : ℝ) :
    perfilTemperaturaDiaria 54000 T_min T_max = T_max := by
  unfold perfilTemperaturaDiaria
  have h : (2 * Real.pi / 86400) * ((54000 : ℝ) - 54000) = 0 := by ring
  rw [h, Real.cos_zero]; ring

/-- At t = 10800 (03:00) the phase is -pi and the profile attains the minimum. -/
lemma perfil_at_10800 (T_min T_max : ℝ) :
    perfilTemperaturaDiaria 10800 T_min T_max = T_min := by
  unfold perfilTemperaturaDiaria
  have h : (2 * Real.pi / 86400) * ((10800 : ℝ) - 54000) = -Real.pi := by ring
  rw [h, Real.cos_neg, Real.cos_pi]; ring

/-- At t = 18000 (05:00) the phase is -(5 pi/6); the cosine is -sqrt(3)/2. -/
lemma perfil_at_18000 (T_min T_max : ℝ) :
    perfilTemperaturaDiaria 18000 T_min T_max
      = (T_max + T_min) / 2 - ((T_max - T_min) / 2) * (Real.sqrt 3 / 2) := by
  unfold perfilTemperaturaDiaria
  have h : (2 * Real.pi / 86400) * ((18000 : ℝ) - 54000) = -(Real.pi - Real.pi / 6) := by
    ring
  rw [h, Real.cos_neg, Real.cos_pi_sub, Real.cos_pi_div_six]; ring

/-- C5 counterexample. The claim anchors the daily minimum at 05:00
(t = 18000 s), but the pure cosine with its peak at t = 54000 attains its
minimum half a period away, at t = 10800 (03:00): with extrema 290/300 K
the profile at 03:00 is strictly colder than at 05:00, so the minimum does
not occur at t = 18000. -/
theorem perfil_min_hour_counterexample :
    perfilTemperaturaDiaria 10800 290 300 < perfilTemperaturaDiaria 18000 290 300 := by
  rw [perfil_at_10800, perfil_at_18000]
  have h3 : Real.sqrt 3 < 2 := by
    nlinarith [Real.sq_sqrt (by norm_num : (0 : ℝ) ≤ 3), Real.sqrt_nonneg 3]
  nlinarith

/-- C5 (amended): the hourly trajectory equals
mean(min,max) + amplitude * cos(omega * (t - t_peak)) with omega = 2 pi/86400
and t_peak = 54000 s (15:00), where the daily maximum is attained; the daily
minimum is attained at t = 10800 s (03:00), half a period from the peak, not
at 05:00. -/
theorem perfil_formula_peak_amended (T_min T_max : ℝ) (h : T_min ≤ T_max) :
    (∀ t : ℝ, perfilTemperaturaDiaria t T_min T_max
        = (T_min + T_max) / 2
          + ((T_max - T_min) / 2) * Real.cos ((2 * Real.pi / 86400) * (t - 54000))) ∧
    perfilTemperaturaDiaria 54000 T_min T_max = T_max ∧
    perfilTemperaturaDiaria 10800 T_min T_max = T_min ∧
    (∀ t : ℝ, perfilTemperaturaDiaria t T_min T_max
        ≤ perfilTemperaturaDiaria 54000 T_min T_max) ∧
    (∀ t : ℝ, perfilTemperaturaDiaria 10800 T_min T_max
        ≤ perfilTemperaturaDiaria t T_min T_max) := by
  refine ⟨fun t => by unfold perfilTemperaturaDiaria; ring,
    perfil_at_54000 T_min T_max, perfil_at_10800 T_min T_max, fun t => ?_, fun t => ?_⟩
  · rw [perfil_at_54000]; exact (perfil_bounds t T_min T_max h).2
  · rw [perfil_at_10800]; exact (perfil_bounds t T_min T_max h).1

/-- C5 amended witness at the concrete extrema 290 K / 300 K. -/
theorem perfil_formula_peak_amended_witness :
    (290 : ℝ) ≤ 300 ∧ perfilTemperaturaDiaria 54000 290 300 = 300 ∧
      perfilTemperaturaDiaria 10800 290 300 = 290 :=
  ⟨by norm_num, (perfil_formula_peak_amended 290 300 (by norm_num)).2.1,
   (perfil_formula_peak_amended 290 300 (by norm_num)).2.2.1⟩

/-- C9: for T_min ≤ T_max the generated ambient temperature never leaves the
closed interval [T_min, T_max]. -/
theorem perfil_within_extrema (T_min T_max : ℝ) (h : T_min ≤ T_max) (t : ℝ) :
    perfilTemperaturaDiaria t T_min T_max ∈ Set.Icc T_min T_max :=
  ⟨(perfil_bounds t T_min T_max h).1, (perfil_bounds t T_min T_max h).2⟩

/-- C9 witness: the profile at t = 0 with extrema 290 K / 300 K lies in
the interval [290, 300]. -/
theorem perfil_within_extrema_witness :
    (290 : ℝ) ≤ 300 ∧ perfilTemperaturaDiaria 0 290 300 ∈ Set.Icc (290 : ℝ) 300 :=
  ⟨by norm_num, perfil_within_extrema 290 300 (by norm_num) 0⟩

/-- Embedding of the per-day update of Componentes.GeneradorClima, as a
function of the two Normal-quantile draws of the day: the body assigns
T_min_diaria := Normal.quantile(u1, Tmin_mu, Tmin_sigma) and
T_max_diaria := T_min_diaria + Normal.quantile(u2, DeltaT_mu, DeltaT_sigma),
with no clamping or rejection of either draw.  The second draw ranges over
all of ℝ, since the Normal quantile is unbounded below for positive sigma. -/
def generadorClima_update (T_min_draw DeltaT_draw : ℝ) : ℝ × ℝ :=
  (T_min_draw, T_min_draw + DeltaT_draw)

/-- C2 counterexample. The generator applies no rejection or clamp: a
negative range draw of -1 K on a day with minimum draw 293.15 K yields
T_max_diaria = 292.15 K strictly below T_min_diaria. -/
theorem generadorClima_no_clamp_counterexample :
    (generadorClima_update 293.15 (-1)).2 < (generadorClima_update 293.15 (-1)).1 := by
  norm_num [generadorClima_update]

/-- C2 (amended): GeneradorClima performs no rejection or clamping of the
range draw; the daily maximum equals the daily minimum plus the raw draw,
so T_min_diaria ≤ T_max_diaria holds exactly when the drawn range is
nonnegative, and fails for every negative range draw. -/
theorem generadorClima_max_ge_min_iff (T_min_draw DeltaT_draw : ℝ) :
    (generadorClima_update T_min_draw DeltaT_draw).1
      ≤ (generadorClima_update T_min_draw DeltaT_draw).2 ↔ 0 ≤ DeltaT_draw := by
  simp [generadorClima_update]

/-- Embedding of the optimized control branch of Modelos.SimulacionCompleta
(estrategia = Optimizado): demand is Q_max_cooling above the upper setpoint,
Q_max_cooling in the strict band above the lower setpoint when the COP
exceeds 3.0, else 0. -/
def controlOptimizado (T_room COP T_setpoint_inferior T_setpoint_superior
    Q_max_cooling : ℝ) : ℝ :=
  if T_room > T_setpoint_superior then Q_max_cooling
  else if T_room > T_setpoint_inferior ∧ COP > 3.0 then Q_max_cooling
  else 0

/-- C3 counterexample. The claim places the middle band at [T_low, T_hot):
at T_room = T_low = 22 C = 295.15 K with COP = 4 above the efficiency
threshold, the claim demands Q_max, but the code tests the strict
inequality T_room > T_setpoint_inferior and returns 0. -/
theorem controlOptimizado_boundary_counterexample :
    (22 + 273.15 : ℝ) ≤ 22 + 273.15 ∧ (22 + 273.15 : ℝ) < 26 + 273.15 ∧
      (3 : ℝ) < 4 ∧
      controlOptimizado (22 + 273.15) 4 (22 + 273.15) (26 + 273.15) 60000 = 0 ∧
      (0 : ℝ) ≠ 60000 := by
  refine ⟨le_refl _, by norm_num, by norm_num, ?_, by norm_num⟩
  unfold controlOptimizado
  norm_num

/-- Shape of the optimized controller as a three-level deadband with
middle band (T_low, T_hot]: the emergency ceiling uses a strict test, the
lower setpoint is excluded from the middle band, and the output is on/off. -/
def ControlOptimizadoDeadband (T_room COP T_inf T_sup Q_max : ℝ) : Prop :=
  (T_sup < T_room → controlOptimizado T_room COP T_inf T_sup Q_max = Q_max) ∧
  (T_inf < T_room → T_room ≤ T_sup →
    (controlOptimizado T_room COP T_inf T_sup Q_max = Q_max ↔ 3.0 < COP)) ∧
  (T_room ≤ T_inf → controlOptimizado T_room COP T_inf T_sup Q_max = 0) ∧
  (controlOptimizado T_room COP T_inf T_sup Q_max = 0 ∨
    controlOptimizado T_room COP T_inf T_sup Q_max = Q_max)

/-- C3 (amended): for ordered setpoints and positive Q_max, the optimized
controller forces Q_max strictly above T_hot, in the middle band
(T_low, T_hot] — left end excluded, right end included — it demands Q_max
exactly when COP exceeds 3.0, at and below T_low it demands 0, and the
demand is always 0 or Q_max. -/
theorem controlOptimizado_deadband (T_room COP T_inf T_sup Q_max : ℝ)
    (hQ : 0 < Q_max) (hT : T_inf ≤ T_sup) :
    ControlOptimizadoDeadband T_room COP T_inf T_sup Q_max := by
  refine ⟨fun h => ?_, fun h1 h2 => ?_, fun h => ?_, ?_⟩
  · unfold controlOptimizado
    rw [if_pos h]
  · unfold controlOptimizado
    rw [if_neg (not_lt.mpr h2)]
    constructor
    · intro he
      by_contra hc
      rw [if_neg (fun hand => hc hand.2)] at he
      exact absurd he.symm (ne_of_gt hQ)
    · intro hc
      rw [if_pos ⟨h1, hc⟩]
  · unfold controlOptimizado
    rw [if_neg (not_lt.mpr (h.trans hT)), if_neg (fun hand => absurd hand.1 (not_lt.mpr h))]
  · unfold controlOptimizado
    split_ifs
    · exact Or.inr rfl
    · exact Or.inr rfl
    · exact Or.inl rfl

/-- C3 amended witness at the default setpoints 22 C / 26 C, room
temperature 297 K inside the band, COP 4 and Q_max 60000 W. -/
theorem controlOptimizado_deadband_witness :
    (0 : ℝ) < 60000 ∧ (22 + 273.15 : ℝ) ≤ 26 + 273.15 ∧
      ControlOptimizadoDeadband 297 4 (22 + 273.15) (26 + 273.15) 60000 :=
  ⟨by norm_num, by norm_num,
   controlOptimizado_deadband 297 4 (22 + 273.15) (26 + 273.15) 60000
     (by norm_num) (by norm_num)⟩

/-- Embedding of the P_electric equation of Componentes.HVAC: power is the
cooling demand divided by the clamped COP when the demand exceeds 1e-6 W,
else 0. -/
def hvac_P_electric (Q_cooling_demand T_ambient : ℝ) : ℝ :=
  if Q_cooling_demand > 1e-6 then Q_cooling_demand / max (calcularCOP T_ambient) 1e-6
  else 0

/-- Modelled from the spec (HVACSubsystem contract): electrical power equals
cooling_demand divided by the COP clamped to a minimum of a small positive
epsilon whenever the demand exceeds a small positive threshold, and equals
exactly 0 otherwise. -/
def hvac_power_spec (cooling_demand T_ambient : ℝ) : ℝ :=
  if 1e-6 < cooling_demand then cooling_demand / max (calcularCOP T_ambient) 1e-6
  else 0

/-- C4: the HVAC electrical power of the code coincides with the power
stated by the spec for every demand and ambient temperature. -/
theorem hvac_P_electric_matches_spec (q T : ℝ) :
    hvac_P_electric q T = hvac_power_spec q T := rfl

/-- The HVAC electrical power is never negative, for any demand and ambient
temperature. -/
lemma hvac_P_electric_nonneg (q T : ℝ) : 0 ≤ hvac_P_electric q T := by
  unfold hvac_P_electric
  split_ifs with h
  · exact div_nonneg (by linarith) (le_of_lt (lt_max_of_lt_right (by norm_num)))
  · exact le_refl 0

/-- Embedding of der(EnergiaTotal) = P_electric of Componentes.HVAC:
the cumulative energy is the time integral of the electrical power along
given demand and ambient trajectories, from the start of the simulation. -/
def hvac_EnergiaTotal (q T : ℝ → ℝ) (t : ℝ) : ℝ :=
  ∫ s in (0 : ℝ)..t, hvac_P_electric (q s) (T s)

/-- Embedding of CostoTotal = (EnergiaTotal / 3.6e6) * costo_kWh of
Componentes.HVAC. -/
def hvac_CostoTotal (costo_kWh : ℝ) (q T : ℝ → ℝ) (t : ℝ) : ℝ :=
  hvac_EnergiaTotal q T t / 3.6e6 * costo_kWh

/-- Monotonicity package for the three HVAC outputs: nonnegative
instantaneous power and non-decreasing cumulative energy and cost. -/
def HvacMonotoneOutputs (q T : ℝ → ℝ) (costo_kWh t1 t2 : ℝ) : Prop :=
  (∀ qd Ta : ℝ, 0 ≤ hvac_P_electric qd Ta) ∧
  hvac_EnergiaTotal q T t1 ≤ hvac_EnergiaTotal q T t2 ∧
  hvac_CostoTotal costo_kWh q T t1 ≤ hvac_CostoTotal costo_kWh q T t2

/-- C8: along any demand and ambient trajectories with integrable power and
a nonnegative tariff, the cumulative energy and cumulative cost are
non-decreasing in time, and the instantaneous electrical power is always
nonnegative. -/
theorem hvac_outputs_monotone (q T : ℝ → ℝ) (costo_kWh t1 t2 : ℝ)
    (h1 : IntervalIntegrable (fun s => hvac_P_electric (q s) (T s))
      MeasureTheory.volume 0 t1)
    (h2 : IntervalIntegrable (fun s => hvac_P_electric (q s) (T s))
      MeasureTheory.volume t1 t2)
    (hc : 0 ≤ costo_kWh) (h12 : t1 ≤ t2) :
    HvacMonotoneOutputs q T costo_kWh t1 t2 := by
  have hE : hvac_EnergiaTotal q T t1 ≤ hvac_EnergiaTotal q T t2 := by
    unfold hvac_EnergiaTotal
    rw [← intervalIntegral.integral_add_adjacent_intervals h1 h2]
    have hpos : 0 ≤ ∫ s in t1..t2, hvac_P_electric (q s) (T s) :=
      intervalIntegral.integral_nonneg h12 (fun u _ => hvac_P_electric_nonneg _ _)
    linarith
  refine ⟨fun qd Ta => hvac_P_electric_nonneg qd Ta, hE, ?_⟩
  unfold hvac_CostoTotal
  exact mul_le_mul_of_nonneg_right
    ((div_le_div_iff_of_pos_right (by norm_num)).mpr hE) hc

/-- C8 witness: constant zero demand at 300 K ambient, tariff 0.13, over
the interval from t = 0 to t = 1. -/
theorem hvac_outputs_monotone_witness :
    IntervalIntegrable (fun _ : ℝ => hvac_P_electric 0 300)
      MeasureTheory.volume 0 0 ∧
    IntervalIntegrable (fun _ : ℝ => hvac_P_electric 0 300)
      MeasureTheory.volume 0 1 ∧
    (0 : ℝ) ≤ 0.13 ∧ (0 : ℝ) ≤ 1 ∧
    HvacMonotoneOutputs (fun _ => 0) (fun _ => 300) 0.13 0 1 :=
  ⟨intervalIntegrable_const, intervalIntegrable_const, by norm_num, by norm_num,
   hvac_outputs_monotone (fun _ => 0) (fun _ => 300) 0.13 0 1
     intervalIntegrable_const intervalIntegrable_const (by norm_num) (by norm_num)⟩

/-- Record of AnalisisServidores.Datos.ParametrosFisicos, embedded from the
Datos package of the top-level AnalisisServidores library file: external
surface area A, heat-transfer coefficient U, server heat load Q_servers,
thermal capacitance C_th, maximum cooling power Q_max_cooling and energy
tariff costo_kWh. -/
structure ParametrosFisicos where
  A : ℝ
  U : ℝ
  Q_servers : ℝ
  C_th : ℝ
  Q_max_cooling : ℝ
  costo_kWh : ℝ

/-- Right-hand side of the Componentes.SalaServidores ODE solved for
der(T_room): the equations are
Q_transmission = A * U * (T_ambient - T_room) and
C_th * der(T_room) = Q_servers + Q_transmission - Q_cooling. -/
def salaServidores_der (p : ParametrosFisicos) (T_ambient Q_cooling T_room : ℝ) : ℝ :=
  (p.Q_servers + p.A * p.U * (T_ambient - T_room) - Q_cooling) / p.C_th

/-- Analytic fixed point of the room ODE with zero cooling. -/
def salaServidores_Tfix (p : ParametrosFisicos) (T_ambient : ℝ) : ℝ :=
  T_ambient + p.Q_servers / (p.A * p.U)

/-- Closed-form solution of the room ODE with Q_cooling = 0, constant
ambient temperature and initial room temperature T0. -/
def salaServidores_sol (p : ParametrosFisicos) (T_ambient T0 t : ℝ) : ℝ :=
  salaServidores_Tfix p T_ambient
    + (T0 - salaServidores_Tfix p T_ambient) * Real.exp (-(p.A * p.U / p.C_th) * t)

/-- Convergence package for the zero-cooling room ODE: the fixed point is
unique, the closed-form trajectory starts at T0, satisfies the ODE, and
converges to the fixed point as time goes to infinity. -/
def SalaServidoresConvergence (p : ParametrosFisicos) (T_ambient T0 : ℝ) : Prop :=
  (∀ T_room : ℝ, salaServidores_der p T_ambient 0 T_room = 0 ↔
    T_room = salaServidores_Tfix p T_ambient) ∧
  salaServidores_sol p T_ambient T0 0 = T0 ∧
  (∀ t : ℝ, HasDerivAt (salaServidores_sol p T_ambient T0)
    (salaServidores_der p T_ambient 0 (salaServidores_sol p T_ambient T0 t)) t) ∧
  Filter.Tendsto (salaServidores_sol p T_ambient T0) Filter.atTop
    (nhds (salaServidores_Tfix p T_ambient))

/-- C7: for strictly positive A, U, Q_servers and C_th, with zero cooling
and constant ambient temperature, T_ambient + Q_servers/(A U) is the unique
fixed point of the room ODE and the solution converges to it. -/
theorem salaServidores_fixed_point_convergence (p : ParametrosFisicos)
    (hA : 0 < p.A) (hU : 0 < p.U) (hQs : 0 < p.Q_servers) (hC : 0 < p.C_th)
    (T_ambient T0 : ℝ) : SalaServidoresConvergence p T_ambient T0 := by
  have hAU : p.A * p.U ≠ 0 := ne_of_gt (mul_pos hA hU)
  have hC' : p.C_th ≠ 0 := ne_of_gt hC
  refine ⟨?_, ?_, ?_, ?_⟩
  · intro T_room
    unfold salaServidores_der salaServidores_Tfix
    rw [div_eq_zero_iff]
    constructor
    · rintro (h | h)
      · field_simp
        nlinarith [h]
      · exact absurd h hC'
    · intro h
      left
      rw [h]
      field_simp
      ring
  · unfold salaServidores_sol
    simp [Real.exp_zero]
  · intro t
    have hk : HasDerivAt (fun s : ℝ => -(p.A * p.U / p.C_th) * s)
        (-(p.A * p.U / p.C_th)) t := by
      simpa using (hasDerivAt_id t).const_mul (-(p.A * p.U / p.C_th))
    have he := hk.exp
    have hs := (he.const_mul (T0 - salaServidores_Tfix p T_ambient)).const_add
      (salaServidores_Tfix p T_ambient)
    have hval : salaServidores_der p T_ambient 0 (salaServidores_sol p T_ambient T0 t)
        = (T0 - salaServidores_Tfix p T_ambient)
          * (Real.exp (-(p.A * p.U / p.C_th) * t) * -(p.A * p.U / p.C_th)) := by
      unfold salaServidores_der salaServidores_sol salaServidores_Tfix
      field_simp
      ring
    rw [hval]
    exact hs
  · have h0 : Filter.Tendsto (fun t : ℝ => (p.A * p.U / p.C_th) * t)
        Filter.atTop Filter.atTop :=
      Filter.Tendsto.const_mul_atTop (by positivity) Filter.tendsto_id
    have h1 : Filter.Tendsto (fun t : ℝ => -(p.A * p.U / p.C_th) * t)
        Filter.atTop Filter.atBot := by
      have hfun : (fun t : ℝ => -(p.A * p.U / p.C_th) * t)
          = fun t : ℝ => -((p.A * p.U / p.C_th) * t) := by
        funext t; ring
      rw [hfun]
      exact Filter.tendsto_neg_atTop_atBot.comp h0
    have hexp : Filter.Tendsto (fun t : ℝ => Real.exp (-(p.A * p.U / p.C_th) * t))
        Filter.atTop (nhds 0) := Real.tendsto_exp_atBot.comp h1
    have hfull := ((hexp.const_mul (T0 - salaServidores_Tfix p T_ambient)).const_add
      (salaServidores_Tfix p T_ambient))
    unfold salaServidores_sol
    simpa using hfull

/-- Concrete physical parameters taken from the end-to-end scenario of the
spec: A = 126 m2, U = 5.5 W/m2K, Q_servers = 45000 W, C_th = 2e6 J/K,
Q_max = 60000 W, tariff 0.13 USD/kWh. -/
def paramsEjemplo : ParametrosFisicos :=
  ⟨126, 5.5, 45000, 2000000, 60000, 0.13⟩

/-- C7 witness at the concrete example parameters, ambient 300 K, initial
room temperature 297.15 K. -/
theorem salaServidores_fixed_point_convergence_witness :
    0 < paramsEjemplo.A ∧ 0 < paramsEjemplo.U ∧ 0 < paramsEjemplo.Q_servers ∧
      0 < paramsEjemplo.C_th ∧ SalaServidoresConvergence paramsEjemplo 300 297.15 :=
  ⟨by norm_num [paramsEjemplo], by norm_num [paramsEjemplo],
   by norm_num [paramsEjemplo], by norm_num [paramsEjemplo],
   salaServidores_fixed_point_convergence paramsEjemplo (by norm_num [paramsEjemplo])
     (by norm_num [paramsEjemplo]) (by norm_num [paramsEjemplo])
     (by norm_num [paramsEjemplo]) 300 297.15⟩

/-- Embedding of Math.min(...costs) over a nonempty array, as used by both
front-end histogram builders; the empty case (Infinity in JS) is
unreachable there and modelled as 0. -/
def jsMinList : List ℝ → ℝ
  | [] => 0
  | c :: cs => cs.foldl min c

/-- Embedding of Math.max(...costs) over a nonempty array. -/
def jsMaxList : List ℝ → ℝ
  | [] => 0
  | c :: cs => cs.foldl max c

/-- Embedding of the bin index Math.min(Math.floor((v - mn)/w), nbins - 1)
of the front-end histogram builders, with JS division semantics at w = 0:
the quotient is NaN for v = mn (0/0) and +Infinity for v > mn; Math.floor
and Math.min propagate NaN, and map +Infinity to nbins - 1; an increment at
index NaN (or -Infinity, for the unreachable case v < mn) changes no
numeric bin and is modelled as none. -/
def jsBinIndexOpt (mn w : ℝ) (nbins : ℕ) (v : ℝ) : Option ℤ :=
  if w = 0 then
    if v = mn then none
    else if mn < v then some ((nbins : ℤ) - 1)
    else none
  else some (min ⌊(v - mn) / w⌋ ((nbins : ℤ) - 1))

/-- Embedding of the binning of createHistogram (and of createCostHistogram
up to bin count): 15 bins of width (max - min)/15 with no degenerate-case
guard; the final count of bin i is the number of samples whose JS bin index
evaluates to i. -/
def createHistogram_bins (costs : List ℝ) : List ℕ :=
  (List.range 15).map (fun i : ℕ =>
    (costs.map (jsBinIndexOpt (jsMinList costs)
      ((jsMaxList costs - jsMinList costs) / 15) 15)).count (some (i : ℤ)))

/-- Embedding of the binning of updateCostHistogram: when min equals max it
returns the single bin [costs.length], otherwise 15 bins as in
createHistogram. -/
def updateCostHistogram_bins (costs : List ℝ) : List ℕ :=
  if jsMinList costs = jsMaxList costs then [costs.length]
  else (List.range 15).map (fun i : ℕ =>
    (costs.map (jsBinIndexOpt (jsMinList costs)
      ((jsMaxList costs - jsMinList costs) / 15) 15)).count (some (i : ℤ)))

/-- Folding an idempotent operation over a constant list is the constant. -/
lemma list_foldl_const (op : ℝ → ℝ → ℝ) (c : ℝ) (hop : op c c = c)
    (l : List ℝ) (h : ∀ x ∈ l, x = c) : l.foldl op c = c := by
  induction l with
  | nil => rfl
  | cons x xs ih =>
    have hx : x = c := h x (List.mem_cons_self x xs)
    rw [List.foldl_cons, hx, hop]
    exact ih (fun y hy => h y (List.mem_cons_of_mem x hy))

/-- Minimum of a nonempty constant list. -/
lemma jsMinList_const (costs : List ℝ) (c : ℝ) (hne : costs ≠ [])
    (hall : ∀ x ∈ costs, x = c) : jsMinList costs = c := by
  cases costs with
  | nil => exact absurd rfl hne
  | cons x xs =>
    have hx : x = c := hall x (List.mem_cons_self x xs)
    show xs.foldl min x = c
    rw [hx]
    exact list_foldl_const min c (min_self c) xs
      (fun y hy => hall y (List.mem_cons_of_mem x hy))

/-- Maximum of a nonempty constant list. -/
lemma jsMaxList_const (costs : List ℝ) (c : ℝ) (hne : costs ≠ [])
    (hall : ∀ x ∈ costs, x = c) : jsMaxList costs = c := by
  cases costs with
  | nil => exact absurd rfl hne
  | cons x xs =>
    have hx : x = c := hall x (List.mem_cons_self x xs)
    show xs.foldl max x = c
    rw [hx]
    exact list_foldl_const max c (max_self c) xs
      (fun y hy => hall y (List.mem_cons_of_mem x hy))

/-- On an all-equal nonempty batch, createHistogram computes bin width 0,
every bin index is NaN, and all 15 numeric bins stay at zero. -/
lemma createHistogram_bins_const (costs : List ℝ) (c : ℝ) (hne : costs ≠ [])
    (hall : ∀ x ∈ costs, x = c) : createHistogram_bins costs = List.replicate 15 0 := by
  have hmn := jsMinList_const costs c hne hall
  have hmx := jsMaxList_const costs c hne hall
  unfold createHistogram_bins
  rw [hmn, hmx]
  have hw : (c - c) / 15 = (0 : ℝ) := by ring
  rw [hw]
  have hnone : ∀ v ∈ costs, jsBinIndexOpt c 0 15 v = none := by
    intro v hv
    have hvc : v = c := hall v hv
    unfold jsBinIndexOpt
    rw [if_pos rfl, if_pos hvc]
  have hcount : ∀ i : ℕ, (costs.map (jsBinIndexOpt c 0 15)).count (some (i : ℤ)) = 0 := by
    intro i
    rw [List.count_eq_zero]
    intro hmem
    rcases List.mem_map.mp hmem with ⟨v, hv, hfv⟩
    rw [hnone v hv] at hfv
    exact Option.noConfusion hfv
  rw [List.map_congr_left (fun i _ => hcount i)]
  simp

/-- On an all-equal nonempty batch, updateCostHistogram takes its
degenerate branch and returns the single bin holding every sample. -/
lemma updateCostHistogram_bins_const (costs : List ℝ) (c : ℝ) (hne : costs ≠ [])
    (hall : ∀ x ∈ costs, x = c) : updateCostHistogram_bins costs = [costs.length] := by
  have hmn := jsMinList_const costs c hne hall
  have hmx := jsMaxList_const costs c hne hall
  unfold updateCostHistogram_bins
  rw [hmn, hmx, if_pos rfl]

/-- C6 counterexample. For the batch [100, 100, 100] the cited
createHistogram builder (no degenerate-case guard) computes bin width 0,
every bin index is NaN, and its 15 bins all hold 0 samples: it does not
collapse to one bin holding the 3 samples. -/
theorem createHistogram_degenerate_counterexample :
    createHistogram_bins [100, 100, 100] = List.replicate 15 0 ∧
      ([100, 100, 100] : List ℝ).length = 3 ∧
      createHistogram_bins [100, 100, 100] ≠ [3] := by
  have h := createHistogram_bins_const [100, 100, 100] 100 (by simp)
    (by intro x hx; simpa using hx)
  refine ⟨h, rfl, ?_⟩
  rw [h]
  decide

/-- C6 (amended): on an all-equal nonempty cost batch, the
updateCostHistogram builder collapses to exactly one bin whose count is the
number of samples, but the createHistogram builder has no degenerate-case
guard: its bin width is 0, every bin index is NaN, and its 15 bins all stay
at count 0. -/
theorem histogram_degenerate_amended (costs : List ℝ) (c : ℝ) (hne : costs ≠ [])
    (hall : ∀ x ∈ costs, x = c) :
    updateCostHistogram_bins costs = [costs.length] ∧
      createHistogram_bins costs = List.replicate 15 0 :=
  ⟨updateCostHistogram_bins_const costs c hne hall,
   createHistogram_bins_const costs c hne hall⟩

/-- C6 amended witness on the concrete batch [100, 100, 100]. -/
theorem histogram_degenerate_amended_witness :
    ([100, 100, 100] : List ℝ) ≠ [] ∧ (∀ x ∈ ([100, 100, 100] : List ℝ), x = 100) ∧
      updateCostHistogram_bins [100, 100, 100] = [3] ∧
      createHistogram_bins [100, 100, 100] = List.replicate 15 0 :=
  ⟨by simp, by intro x hx; simpa using hx,
   (histogram_degenerate_amended [100, 100, 100] 100 (by simp)
     (by intro x hx; simpa using hx)).1,
   (histogram_degenerate_amended [100, 100, 100] 100 (by simp)
     (by intro x hx; simpa using hx)).2⟩

end

end AnalisisServidores
